import Mathlib

/-!
Shallow embedding of `src/backend/extractors/docling_extractor.py`
(the `DoclingExtractor` class and its helpers).

Modelling conventions:
* The two external engines (Docling and pypdf) are modelled by functions
  from the payload to their observable outcomes.
* Wall-clock time is an abstract millisecond reading threaded through as a
  parameter (only its presence in the envelopes matters to the code).
* Bounding-box coordinates are integers; the source never computes with
  them, it only carries them through.
* Python's `str.lower`, `str.strip` and `"\n".join` are modelled by
  character-list functions `strLower`, `strTrim` and `joinSep`.
* Python dicts are modelled by insertion-ordered association lists, so the
  set of keys present in an envelope's `statistics` dict is observable.
-/

namespace DoclingExtraction

/-- Python `str.lower` on the string (ASCII case folding on each char). -/
def strLower (s : String) : String :=
  String.mk (s.data.map Char.toLower)

/-- Python `str.strip` with no arguments: remove leading and trailing
whitespace. -/
def strTrim (s : String) : String :=
  String.mk (((s.data.dropWhile Char.isWhitespace).reverse.dropWhile
    Char.isWhitespace).reverse)

/-- Python `sep.join(parts)`. -/
def joinSep (sep : String) : List String → String
  | [] => ""
  | [x] => x
  | x :: y :: xs => x ++ sep ++ joinSep sep (y :: xs)

/-- Mirrors the `BoundingBox` dataclass: four coordinates plus a page
index. -/
structure BoundingBox where
  x0 : Int
  y0 : Int
  x1 : Int
  y1 : Int
  page : Nat
deriving DecidableEq, Repr

/-- Mirrors the `ExtractedElement` dataclass.  `confidence` is always
`none` in the code being modelled (Docling supplies no scores). -/
structure ExtractedElement where
  type : String
  content : String
  bbox : Option BoundingBox
  page : Nat
  confidence : Option Int := none
deriving DecidableEq, Repr

/-- A native bounding box carried by a Docling item (`item.bbox`, with
fields `l`, `t`, `r`, `b`). -/
structure NativeBBox where
  l : Int
  t : Int
  r : Int
  b : Int
deriving DecidableEq, Repr

/-- One item yielded by `document.iterate_items()`, as probed by the
parsing loop: `label` (`none` means `getattr` falls back to its default),
`text` (`none` means the loop uses `str(item)`, recorded in `strRepr`),
and `bbox` (`none` covers both an absent and a falsy attribute). -/
structure NativeItem where
  label : Option String
  text : Option String
  strRepr : String
  bbox : Option NativeBBox
deriving DecidableEq, Repr

/-- The `document` attribute of a Docling conversion result, together with
the point at which the parsing loop may raise: `items` are the items the
loop processes successfully, and `parseRaises` records that an exception
is raised afterwards (it is caught inside `_parse_docling_output`, which
then returns the elements accumulated so far). -/
structure DoclingDocument where
  items : List NativeItem
  parseRaises : Bool
deriving DecidableEq, Repr

/-- A Docling conversion result: `getattr(result, 'document', None)`. -/
structure DoclingResult where
  document : Option DoclingDocument
deriving DecidableEq, Repr

/-- A metadata value: the Python metadata dicts hold ints or strings. -/
inductive MetaVal where
  | nat (n : Nat)
  | str (s : String)
deriving DecidableEq, Repr

/-- The result dictionary returned by `extract` and
`_fallback_extraction`.  Optional fields model keys that are present only
on some paths; `processing_time_ms` is present on every path. -/
structure ResultEnvelope where
  status : String
  model : String
  filename : String
  markdown : Option String
  elements : Option (List ExtractedElement)
  statistics : Option (List (String × Nat))
  processing_time_ms : Nat
  metadata : Option (List (String × MetaVal))
  error : Option String
deriving DecidableEq, Repr

/-- The fixed label table of `_map_docling_type`. -/
def doclingTypeMapping : List (String × String) :=
  [("title", "title"), ("heading", "header"), ("paragraph", "paragraph"),
   ("text", "paragraph"), ("table", "table"), ("figure", "figure"),
   ("list", "list"), ("caption", "caption")]

/-- `_map_docling_type`: case-insensitive lookup in the fixed table with
default `"paragraph"`. -/
def mapDoclingType (docling_label : String) : String :=
  (doclingTypeMapping.lookup (strLower docling_label)).getD "paragraph"

/-- The per-item body of the parsing loop of `_parse_docling_output`
(`page_num` is initialised to `1` and never changed by the loop). -/
def parseItem (item : NativeItem) : ExtractedElement :=
  { type := mapDoclingType (item.label.getD "paragraph")
    content := strTrim (item.text.getD item.strRepr)
    bbox := item.bbox.map (fun b => BoundingBox.mk b.l b.t b.r b.b 1)
    page := 1
    confidence := none }

/-- `_parse_docling_output`: returns `[]` when the result has no
`document` attribute; otherwise maps the loop body over the items the loop
reaches.  An exception inside the loop (`parseRaises`) is caught and the
partial element list is returned unchanged. -/
def parseDoclingOutput (result : DoclingResult) : List ExtractedElement :=
  match result.document with
  | none => []
  | some doc => doc.items.map parseItem

/-- The per-element branch of `_generate_markdown`: the rendered part, or
`none` when no branch of the if/elif chain matches (such an element
contributes nothing to `markdown_parts`). -/
def renderElement (element : ExtractedElement) : Option String :=
  if element.type = "title" then some ("# " ++ element.content ++ "\n")
  else if element.type = "header" then some ("## " ++ element.content ++ "\n")
  else if element.type = "paragraph" then some (element.content ++ "\n")
  else if element.type = "list" then some ("- " ++ element.content ++ "\n")
  else if element.type = "table" then some ("\n" ++ element.content ++ "\n")
  else if element.type = "figure" then
    some ("![Figure](" ++ element.content ++ ")\n")
  else if element.type = "caption" then
    some ("*" ++ element.content ++ "*\n")
  else none

/-- `_generate_markdown`: collect the parts in element order and join with
`"\n"`. -/
def generateMarkdown (elements : List ExtractedElement) : String :=
  joinSep "\n" (elements.filterMap renderElement)

/-- One per-type tally of the counting loop of `_calculate_stats`. -/
def countType (elements : List ExtractedElement) (t : String) : Nat :=
  (elements.filter (fun e => e.type == t)).length

/-- Python `max` over a non-empty list, folded from its first entry. -/
def listMax (p : Nat) (ps : List Nat) : Nat :=
  ps.foldl Nat.max p

/-- `_calculate_stats`, as the insertion-ordered dict it returns:
`total_pages` is `max(e.page for e in elements)` when the list is
non-empty and `1` otherwise. -/
def calculateStats (elements : List ExtractedElement) : List (String × Nat) :=
  [("total_elements", elements.length),
   ("titles", countType elements "title"),
   ("headers", countType elements "header"),
   ("paragraphs", countType elements "paragraph"),
   ("tables", countType elements "table"),
   ("figures", countType elements "figure"),
   ("lists", countType elements "list"),
   ("total_pages",
     match elements.map ExtractedElement.page with
     | [] => 1
     | p :: ps => listMax p ps)]

/-- The page loop of `_fallback_extraction`: pages are 1-indexed; each
page whose stripped text is non-empty contributes one `paragraph` element
(stripped text, no bounding box) and one `## Page N` Markdown section
(raw text).  Returns `(elements, markdown_parts)`. -/
def fallbackLoop (page_num : Nat) : List String → List ExtractedElement × List String
  | [] => ([], [])
  | text :: rest =>
    let tail := fallbackLoop (page_num + 1) rest
    if strTrim text ≠ "" then
      ({ type := "paragraph", content := strTrim text, bbox := none,
         page := page_num, confidence := none } :: tail.1,
       ("## Page " ++ toString page_num ++ "\n\n" ++ text ++ "\n") :: tail.2)
    else tail

/-- The observable outcome of the pypdf fallback body on a payload: the
list of per-page `extract_text()` results, or the stringified exception
raised anywhere in the body (reader construction or text extraction). -/
def ReaderOutcome : Type := Except String (List String)

/-- `_fallback_extraction`.  `reader` models pypdf as a function from the
payload bytes to its outcome; `elapsedMs` is the wall-clock reading used
for `processing_time_ms`.  The error envelope uses `self.model_name`,
which is `"docling"`. -/
def fallbackExtraction (reader : List Nat → Except String (List String))
    (pdf_bytes : List Nat) (filename : String) (elapsedMs : Nat) :
    ResultEnvelope :=
  match reader pdf_bytes with
  | Except.ok pageTexts =>
    let pair := fallbackLoop 1 pageTexts
    { status := "success"
      model := "pypdf_fallback"
      filename := filename
      markdown := some (joinSep "\n" pair.2)
      elements := some pair.1
      statistics := some
        [("total_elements", pair.1.length),
         ("total_pages", pageTexts.length),
         ("paragraphs", pair.1.length)]
      processing_time_ms := elapsedMs
      metadata := some
        [("note", MetaVal.str "Fallback extraction used (Docling unavailable)")]
      error := none }
  | Except.error e =>
    { status := "error"
      model := "docling"
      filename := filename
      markdown := none
      elements := none
      statistics := none
      processing_time_ms := elapsedMs
      metadata := none
      error := some e }

/-- `DoclingExtractor.extract`.  `primary` models the whole primary
attempt (import of `DocumentConverter` plus `converter.convert`) as a
function from the payload bytes to either an exception (`ImportError` or
any other, both of which the code sends to the fallback) or a conversion
result. -/
def extract (primary : List Nat → Except Unit DoclingResult)
    (reader : List Nat → Except String (List String))
    (pdf_bytes : List Nat) (filename : String) (elapsedMs : Nat) :
    ResultEnvelope :=
  match primary pdf_bytes with
  | Except.error _ => fallbackExtraction reader pdf_bytes filename elapsedMs
  | Except.ok result =>
    let elements := parseDoclingOutput result
    let stats := calculateStats elements
    { status := "success"
      model := "docling"
      filename := filename
      markdown := some (generateMarkdown elements)
      elements := some elements
      statistics := some stats
      processing_time_ms := elapsedMs
      metadata := some
        [("total_pages", MetaVal.nat ((stats.lookup "total_pages").getD 1)),
         ("total_elements", MetaVal.nat elements.length)]
      error := none }

/-- A filesystem operation performed by the temp-file scope of `extract`
(the `NamedTemporaryFile` / `try` / `finally` block): create the named
temporary file, write the payload to it, invoke the engine on its path,
unlink it.  `convert` only reads the file. -/
inductive FsEvent where
  | create (name : String)
  | fileWrite (name : String) (payload : List Nat)
  | convert (name : String)
  | unlink (name : String)
deriving DecidableEq, Repr

/-- Where, if anywhere, the body of the `try` block raises: at
`tmp.write`, at `tmp.close`, or inside `converter.convert`. -/
inductive ScopeFail where
  | atWrite
  | atClose
  | atConvert
deriving DecidableEq, Repr

/-- The filesystem events performed by the temp-file scope for a given
failure point: the `try` body runs until it raises, and the `finally`
clause unlinks the temporary file on every exit path. -/
def scopeEvents (tmpName : String) (payload : List Nat)
    (failAt : Option ScopeFail) : List FsEvent :=
  FsEvent.create tmpName ::
  (match failAt with
   | some ScopeFail.atWrite => []
   | some ScopeFail.atClose => [FsEvent.fileWrite tmpName payload]
   | some ScopeFail.atConvert =>
     [FsEvent.fileWrite tmpName payload, FsEvent.convert tmpName]
   | none =>
     [FsEvent.fileWrite tmpName payload, FsEvent.convert tmpName]) ++
  [FsEvent.unlink tmpName]

/-- The filesystem, as an association list from path to contents (the
first entry for a path is its current contents). -/
def Fs : Type := List (String × List Nat)

/-- Effect of one event on the filesystem. -/
def applyEvent (fs : List (String × List Nat)) :
    FsEvent → List (String × List Nat)
  | FsEvent.create n => (n, []) :: fs
  | FsEvent.fileWrite n c => (n, c) :: fs
  | FsEvent.convert _ => fs
  | FsEvent.unlink n => fs.filter (fun p => p.1 != n)

/-- Run a list of filesystem events from an initial state. -/
def runEvents (fs : List (String × List Nat)) (events : List FsEvent) :
    List (String × List Nat) :=
  events.foldl applyEvent fs

/-- The filesystem state at the moment the engine is invoked: the events
of the scope that precede the `convert` event, applied to the initial
state. -/
def fsAtConvert (fs : List (String × List Nat)) (tmpName : String)
    (payload : List Nat) (failAt : Option ScopeFail) :
    List (String × List Nat) :=
  runEvents fs ((scopeEvents tmpName payload failAt).takeWhile
    (fun e => e != FsEvent.convert tmpName))

/-- The fixed element-type vocabulary of the normalized schema. -/
def elementTypes : List String :=
  ["title", "header", "paragraph", "table", "figure", "list", "caption"]

/-- The per-type rendering rules as the spec states them (title, header,
paragraph, list, table, figure, caption), as a total function on the
vocabulary; compared with `renderElement`, which is taken from the
source. -/
def specRender (e : ExtractedElement) : String :=
  if e.type = "title" then "# " ++ e.content ++ "\n"
  else if e.type = "header" then "## " ++ e.content ++ "\n"
  else if e.type = "paragraph" then e.content ++ "\n"
  else if e.type = "list" then "- " ++ e.content ++ "\n"
  else if e.type = "table" then "\n" ++ e.content ++ "\n"
  else if e.type = "figure" then "![Figure](" ++ e.content ++ ")\n"
  else "*" ++ e.content ++ "*\n"

/-- A concrete native item used for counterexamples: a plain text item. -/
def sampleItem : NativeItem :=
  { label := some "text", text := some "Hello", strRepr := "Hello",
    bbox := none }

/-! ### Auxiliary lemmas -/

theorem lookup_mem_values {l : List (String × String)} {k v : String}
    (h : l.lookup k = some v) : v ∈ l.map Prod.snd := by
  induction l with
  | nil => simp [List.lookup] at h
  | cons p t ih =>
    rw [List.lookup] at h
    cases hk : (k == p.1) with
    | true => rw [hk] at h; simp at h; simp [h]
    | false =>
      rw [hk] at h
      simp only [List.map_cons, List.mem_cons]
      exact Or.inr (ih h)

theorem mem_of_lookup_eq_some {l : List (String × String)} {k v : String}
    (h : l.lookup k = some v) : (k, v) ∈ l := by
  induction l with
  | nil => simp [List.lookup] at h
  | cons p t ih =>
    rw [List.lookup] at h
    cases hk : (k == p.1) with
    | true =>
      rw [hk] at h
      simp at h
      have hk' : k = p.1 := by
        have := hk
        simpa using this
      simp [← h, hk']
    | false => rw [hk] at h; exact List.mem_cons_of_mem _ (ih h)

theorem mapDoclingType_mem (s : String) : mapDoclingType s ∈ elementTypes := by
  unfold mapDoclingType
  cases h : doclingTypeMapping.lookup (strLower s) with
  | none => simp [elementTypes]
  | some v =>
    have hv := lookup_mem_values h
    simp only [Option.getD_some]
    simp [doclingTypeMapping] at hv
    rcases hv with h | h | h | h | h | h | h | h <;> simp [h, elementTypes]

theorem listMax_mem_cons (p : Nat) (ps : List Nat) :
    listMax p ps ∈ p :: ps := by
  induction ps generalizing p with
  | nil => simp [listMax]
  | cons q qs ih =>
    have h := ih (Nat.max p q)
    have hchoice : Nat.max p q = p ∨ Nat.max p q = q := by
      rcases Nat.le_total p q with hle | hle
      · right; exact Nat.max_eq_right hle
      · left; exact Nat.max_eq_left hle
    simp only [listMax, List.foldl_cons] at h ⊢
    rcases List.mem_cons.mp h with h1 | h1
    · rcases hchoice with hm | hm
      · rw [h1, hm]
        exact List.mem_cons_self _ _
      · rw [h1, hm]
        exact List.mem_cons_of_mem _ (List.mem_cons_self _ _)
    · exact List.mem_cons_of_mem _ (List.mem_cons_of_mem _ h1)

theorem le_listMax_self (p : Nat) (ps : List Nat) : p ≤ listMax p ps := by
  induction ps generalizing p with
  | nil => simp [listMax]
  | cons q qs ih =>
    have h := ih (Nat.max p q)
    have : p ≤ Nat.max p q := Nat.le_max_left p q
    simp only [listMax, List.foldl_cons] at *
    exact Nat.le_trans this h

theorem le_listMax_of_mem {x p : Nat} {ps : List Nat} (hx : x ∈ ps) :
    x ≤ listMax p ps := by
  induction ps generalizing p with
  | nil => simp at hx
  | cons q qs ih =>
    rcases List.mem_cons.mp hx with h | h
    · subst h
      have h1 : x ≤ Nat.max p x := Nat.le_max_right p x
      have h2 : Nat.max p x ≤ listMax (Nat.max p x) qs :=
        le_listMax_self (Nat.max p x) qs
      simpa [listMax] using Nat.le_trans h1 h2
    · simpa [listMax] using ih h

theorem countType_cons (e : ExtractedElement) (es : List ExtractedElement)
    (t : String) :
    countType (e :: es) t = (if e.type = t then 1 else 0) + countType es t := by
  by_cases h : e.type = t <;>
    simp [countType, List.filter_cons, h, Nat.add_comm]

theorem indicator_sum {s : String} (h : s ∈ elementTypes) :
    (if s = "title" then 1 else 0) + (if s = "header" then 1 else 0) +
    (if s = "paragraph" then 1 else 0) + (if s = "table" then 1 else 0) +
    (if s = "figure" then 1 else 0) + (if s = "list" then 1 else 0) +
    (if s = "caption" then 1 else 0) = 1 := by
  simp [elementTypes] at h
  rcases h with h | h | h | h | h | h | h <;> subst h <;> decide

theorem counts_sum {es : List ExtractedElement}
    (h : ∀ e ∈ es, e.type ∈ elementTypes) :
    countType es "title" + countType es "header" + countType es "paragraph" +
    countType es "table" + countType es "figure" + countType es "list" +
    countType es "caption" = es.length := by
  induction es with
  | nil => simp [countType]
  | cons e es ih =>
    have he : e.type ∈ elementTypes := h e (List.mem_cons_self e es)
    have ht : ∀ x ∈ es, x.type ∈ elementTypes := fun x hx =>
      h x (List.mem_cons_of_mem e hx)
    have hsum := ih ht
    have hind := indicator_sum he
    simp only [countType_cons, List.length_cons]
    omega

theorem renderElement_eq_specRender {e : ExtractedElement}
    (h : e.type ∈ elementTypes) : renderElement e = some (specRender e) := by
  simp [elementTypes] at h
  rcases h with h | h | h | h | h | h | h <;> simp [renderElement, specRender, h]

theorem filterMap_renderElement {es : List ExtractedElement}
    (h : ∀ e ∈ es, e.type ∈ elementTypes) :
    es.filterMap renderElement = es.map specRender := by
  induction es with
  | nil => simp
  | cons e es ih =>
    have he := renderElement_eq_specRender (h e (List.mem_cons_self e es))
    have ht : ∀ x ∈ es, x.type ∈ elementTypes := fun x hx =>
      h x (List.mem_cons_of_mem e hx)
    simp [List.filterMap_cons, he, ih ht]

theorem fallbackLoop_all_kept {pages : List String}
    (h : ∀ s ∈ pages, strTrim s ≠ "") (n : Nat) :
    (fallbackLoop n pages).1.length = pages.length ∧
    ∀ e ∈ (fallbackLoop n pages).1,
      e.type = "paragraph" ∧ e.bbox = none ∧ e.confidence = none := by
  induction pages generalizing n with
  | nil => simp [fallbackLoop]
  | cons text rest ih =>
    have htext : strTrim text ≠ "" := h text (List.mem_cons_self text rest)
    have hrest : ∀ s ∈ rest, strTrim s ≠ "" := fun s hs =>
      h s (List.mem_cons_of_mem text hs)
    have hr := ih hrest (n + 1)
    constructor
    · simp [fallbackLoop, htext, hr.1]
    · intro e he
      simp [fallbackLoop, htext] at he
      rcases he with he | he
      · simp [he]
      · exact hr.2 e he

theorem filter_keeps_of_lookup_none {fs : List (String × List Nat)}
    {n : String} (h : fs.lookup n = none) :
    fs.filter (fun p => p.1 != n) = fs := by
  induction fs with
  | nil => rfl
  | cons p t ih =>
    rw [List.lookup] at h
    cases hk : (n == p.1) with
    | true => rw [hk] at h; simp at h
    | false =>
      rw [hk] at h
      have h1 : ¬ (n = p.1) := by simpa using hk
      have hne : (p.1 != n) = true := by
        simp only [bne_iff_ne, ne_eq]
        exact fun hh => h1 hh.symm
      simp [List.filter_cons, hne, ih h]

theorem calculateStats_total_elements (es : List ExtractedElement) :
    (calculateStats es).lookup "total_elements" = some es.length := rfl

theorem calculateStats_titles (es : List ExtractedElement) :
    (calculateStats es).lookup "titles" = some (countType es "title") := rfl

theorem calculateStats_headers (es : List ExtractedElement) :
    (calculateStats es).lookup "headers" = some (countType es "header") := rfl

theorem calculateStats_paragraphs (es : List ExtractedElement) :
    (calculateStats es).lookup "paragraphs" = some (countType es "paragraph") := rfl

theorem calculateStats_tables (es : List ExtractedElement) :
    (calculateStats es).lookup "tables" = some (countType es "table") := rfl

theorem calculateStats_figures (es : List ExtractedElement) :
    (calculateStats es).lookup "figures" = some (countType es "figure") := rfl

theorem calculateStats_lists (es : List ExtractedElement) :
    (calculateStats es).lookup "lists" = some (countType es "list") := rfl

theorem calculateStats_total_pages (es : List ExtractedElement) :
    (calculateStats es).lookup "total_pages" =
      some (match es.map ExtractedElement.page with
            | [] => 1
            | p :: ps => listMax p ps) := rfl

theorem mem_parse {r : DoclingResult} {e : ExtractedElement}
    (he : e ∈ parseDoclingOutput r) : ∃ item, parseItem item = e := by
  unfold parseDoclingOutput at he
  cases hd : r.document with
  | none => rw [hd] at he; simp at he
  | some doc =>
    rw [hd] at he
    rcases List.mem_map.mp he with ⟨item, _, hi⟩
    exact ⟨item, hi⟩

theorem parse_types_mem {r : DoclingResult} :
    ∀ e ∈ parseDoclingOutput r, e.type ∈ elementTypes := by
  intro e he
  rcases mem_parse he with ⟨item, hi⟩
  rw [← hi]
  exact mapDoclingType_mem _

theorem parse_pages_one {r : DoclingResult} :
    ∀ e ∈ parseDoclingOutput r, e.page = 1 ∧ ∀ b ∈ e.bbox, b.page = 1 := by
  intro e he
  rcases mem_parse he with ⟨item, hi⟩
  rw [← hi]
  refine ⟨rfl, ?_⟩
  intro b hb
  cases hib : item.bbox with
  | none => simp [parseItem, hib] at hb
  | some nb =>
    simp [parseItem, hib] at hb
    rw [← hb]

/-! ### Claims -/

/-- C1: for every input byte string and filename (and every behaviour of
the two external engines), `extract` returns an envelope whose `status` is
`"success"` or `"error"`; it is a total function, so it never raises past
its boundary; every failure of the primary engine is converted into a
fallback attempt, and a failure of the fallback is converted into an error
envelope. -/
theorem extract_status_total (primary : List Nat → Except Unit DoclingResult)
    (reader : List Nat → Except String (List String))
    (pdf_bytes : List Nat) (filename : String) (elapsedMs : Nat) :
    ((extract primary reader pdf_bytes filename elapsedMs).status = "success" ∨
     (extract primary reader pdf_bytes filename elapsedMs).status = "error") ∧
    (∀ u, primary pdf_bytes = Except.error u →
      extract primary reader pdf_bytes filename elapsedMs =
        fallbackExtraction reader pdf_bytes filename elapsedMs) ∧
    (∀ e, reader pdf_bytes = Except.error e →
      (fallbackExtraction reader pdf_bytes filename elapsedMs).status =
        "error") := by
  refine ⟨?_, ?_, ?_⟩
  · cases hp : primary pdf_bytes with
    | ok r => left; simp [extract, hp]
    | error u =>
      cases hr : reader pdf_bytes with
      | ok pages => left; simp [extract, fallbackExtraction, hp, hr]
      | error e => right; simp [extract, fallbackExtraction, hp, hr]
  · intro u hu
    simp [extract, hu]
  · intro e he
    simp [fallbackExtraction, he]

/-- C1 witness at a concrete input where both engines fail. -/
theorem extract_status_total_witness :
    extract (fun _ => Except.error ()) (fun _ => Except.error "boom") []
        "a.pdf" 5 =
      fallbackExtraction (fun _ => Except.error "boom") [] "a.pdf" 5 ∧
    (fallbackExtraction (fun _ => Except.error "boom") [] "a.pdf" 5).status =
      "error" :=
  ⟨(extract_status_total (fun _ => Except.error ())
      (fun _ => Except.error "boom") [] "a.pdf" 5).2.1 () rfl,
   (extract_status_total (fun _ => Except.error ())
      (fun _ => Except.error "boom") [] "a.pdf" 5).2.2 "boom" rfl⟩

/-- C2 counterexample: an input whose primary conversion succeeds but
whose parsing loop raises after one item (`parseRaises = true`) still
yields a primary-path success envelope (`model = "docling"`) built from
the partially parsed element list — it is not routed to the fallback,
whose envelopes always carry `model = "pypdf_fallback"` or status
`"error"`. -/
theorem parse_exception_not_fallback_cex :
    (extract (fun _ => Except.ok (DoclingResult.mk
        (some (DoclingDocument.mk [sampleItem] true))))
      (fun _ => Except.ok []) [] "doc.pdf" 0).model = "docling" ∧
    (extract (fun _ => Except.ok (DoclingResult.mk
        (some (DoclingDocument.mk [sampleItem] true))))
      (fun _ => Except.ok []) [] "doc.pdf" 0).status = "success" ∧
    (extract (fun _ => Except.ok (DoclingResult.mk
        (some (DoclingDocument.mk [sampleItem] true))))
      (fun _ => Except.ok []) [] "doc.pdf" 0).elements =
      some [ExtractedElement.mk "paragraph" "Hello" none 1 none] := by
  decide

/-- C2 amended: an exception during primary conversion routes to the
fallback; an exception during parsing of the primary output is caught
inside the parser, and `extract` returns a primary-path success envelope
(`model = "docling"`) containing the elements parsed before the failure;
fallback-produced envelopes always have `model = "pypdf_fallback"` or
status `"error"`. -/
theorem extract_routing (primary : List Nat → Except Unit DoclingResult)
    (reader : List Nat → Except String (List String))
    (pdf_bytes : List Nat) (filename : String) (elapsedMs : Nat) :
    (∀ u, primary pdf_bytes = Except.error u →
      extract primary reader pdf_bytes filename elapsedMs =
        fallbackExtraction reader pdf_bytes filename elapsedMs) ∧
    (∀ r, primary pdf_bytes = Except.ok r →
      (extract primary reader pdf_bytes filename elapsedMs).model =
        "docling" ∧
      (extract primary reader pdf_bytes filename elapsedMs).status =
        "success" ∧
      (extract primary reader pdf_bytes filename elapsedMs).elements =
        some (parseDoclingOutput r)) ∧
    ((fallbackExtraction reader pdf_bytes filename elapsedMs).model =
       "pypdf_fallback" ∨
     (fallbackExtraction reader pdf_bytes filename elapsedMs).status =
       "error") := by
  refine ⟨?_, ?_, ?_⟩
  · intro u hu
    simp [extract, hu]
  · intro r hr
    simp [extract, hr]
  · cases hrd : reader pdf_bytes with
    | ok pages => left; simp [fallbackExtraction, hrd]
    | error e => right; simp [fallbackExtraction, hrd]

/-- C2 amended witness at a concrete input: a document with no `document`
attribute still produces a `"docling"` success envelope. -/
theorem extract_routing_witness :
    (extract (fun _ => Except.ok (DoclingResult.mk none))
      (fun _ => Except.ok []) [] "b.pdf" 1).model = "docling" :=
  ((extract_routing (fun _ => Except.ok (DoclingResult.mk none))
      (fun _ => Except.ok []) [] "b.pdf" 1).2.1
    (DoclingResult.mk none) rfl).1

/-- C3: for every successful primary extraction, the envelope's
`statistics.total_pages` is `1` when the element list is empty, and is the
maximum of the `page` fields over the extracted elements (an observed page
value that bounds all others) when the list is non-empty. -/
theorem primary_total_pages (primary : List Nat → Except Unit DoclingResult)
    (reader : List Nat → Except String (List String))
    (pdf_bytes : List Nat) (filename : String) (elapsedMs : Nat)
    (r : DoclingResult) (h : primary pdf_bytes = Except.ok r) :
    ∃ st, (extract primary reader pdf_bytes filename elapsedMs).statistics =
        some st ∧
      (parseDoclingOutput r = [] → st.lookup "total_pages" = some 1) ∧
      (parseDoclingOutput r ≠ [] →
        ∃ m, st.lookup "total_pages" = some m ∧
          m ∈ (parseDoclingOutput r).map ExtractedElement.page ∧
          ∀ e ∈ parseDoclingOutput r, e.page ≤ m) := by
  refine ⟨calculateStats (parseDoclingOutput r), by simp [extract, h], ?_, ?_⟩
  · intro he
    rw [calculateStats_total_pages, he]
    rfl
  · intro hne
    cases hm : (parseDoclingOutput r).map ExtractedElement.page with
    | nil =>
      exact absurd (List.map_eq_nil_iff.mp hm) hne
    | cons p ps =>
      refine ⟨listMax p ps, ?_, ?_, ?_⟩
      · rw [calculateStats_total_pages, hm]
      · exact listMax_mem_cons p ps
      · intro e he
        have hmem : e.page ∈ (parseDoclingOutput r).map ExtractedElement.page :=
          List.mem_map_of_mem _ he
        rw [hm] at hmem
        rcases List.mem_cons.mp hmem with h1 | h1
        · rw [h1]
          exact le_listMax_self p ps
        · exact le_listMax_of_mem h1

/-- C3 witness: a successful primary extraction with two parsed items. -/
theorem primary_total_pages_witness :
    ∃ st, (extract (fun _ => Except.ok (DoclingResult.mk
          (some (DoclingDocument.mk
            [NativeItem.mk (some "title") (some "Hi") "Hi" none,
             NativeItem.mk (some "text") (some "Body") "Body" none] false))))
        (fun _ => Except.error "off") [] "c.pdf" 2).statistics = some st ∧
      (parseDoclingOutput (DoclingResult.mk
          (some (DoclingDocument.mk
            [NativeItem.mk (some "title") (some "Hi") "Hi" none,
             NativeItem.mk (some "text") (some "Body") "Body" none] false))) =
          [] →
        st.lookup "total_pages" = some 1) ∧
      (parseDoclingOutput (DoclingResult.mk
          (some (DoclingDocument.mk
            [NativeItem.mk (some "title") (some "Hi") "Hi" none,
             NativeItem.mk (some "text") (some "Body") "Body" none] false))) ≠
          [] →
        ∃ m, st.lookup "total_pages" = some m ∧
          m ∈ (parseDoclingOutput (DoclingResult.mk
            (some (DoclingDocument.mk
              [NativeItem.mk (some "title") (some "Hi") "Hi" none,
               NativeItem.mk (some "text") (some "Body") "Body" none]
              false)))).map ExtractedElement.page ∧
          ∀ e ∈ parseDoclingOutput (DoclingResult.mk
            (some (DoclingDocument.mk
              [NativeItem.mk (some "title") (some "Hi") "Hi" none,
               NativeItem.mk (some "text") (some "Body") "Body" none]
              false))), e.page ≤ m) :=
  primary_total_pages _ _ _ _ _ _ rfl

/-- C4: the label-to-type mapping is case-insensitive over the fixed
table — whenever the lowered label is a key of the table, the mapped type
is the key's table value — every label whose lowered form is not a key
maps to `"paragraph"`, `"Heading"` maps to `"header"`, and `"footnote"`
maps to `"paragraph"`. -/
theorem mapDoclingType_spec (label : String) :
    (∀ t, (strLower label, t) ∈ doclingTypeMapping →
      mapDoclingType label = t) ∧
    ((∀ t, (strLower label, t) ∉ doclingTypeMapping) →
      mapDoclingType label = "paragraph") ∧
    mapDoclingType "Heading" = "header" ∧
    mapDoclingType "footnote" = "paragraph" := by
  refine ⟨?_, ?_, by decide, by decide⟩
  · intro t ht
    simp [doclingTypeMapping] at ht
    rcases ht with ⟨h1, h2⟩ | ⟨h1, h2⟩ | ⟨h1, h2⟩ | ⟨h1, h2⟩ | ⟨h1, h2⟩ |
      ⟨h1, h2⟩ | ⟨h1, h2⟩ | ⟨h1, h2⟩ <;>
      (subst h2; unfold mapDoclingType; rw [h1]; decide)
  · intro h
    cases hl : doclingTypeMapping.lookup (strLower label) with
    | none => simp [mapDoclingType, hl]
    | some v => exact absurd (mem_of_lookup_eq_some hl) (h v)

/-- C4 witness: the case-insensitive branch applied at `"Heading"`. -/
theorem mapDoclingType_spec_witness :
    mapDoclingType "Heading" = "header" :=
  (mapDoclingType_spec "Heading").1 "header" (by decide)

/-- C5: when every element's type is in the fixed vocabulary (as is the
case for all extracted elements), the generated Markdown is exactly the
per-type rendering rules applied in element order and joined with blank
lines — Markdown generation is order-preserving. -/
theorem markdown_order_preserving (elements : List ExtractedElement)
    (h : ∀ e ∈ elements, e.type ∈ elementTypes) :
    generateMarkdown elements = joinSep "\n" (elements.map specRender) := by
  unfold generateMarkdown
  rw [filterMap_renderElement h]

/-- C5 witness: a concrete two-element list, rendered both ways. -/
theorem markdown_order_preserving_witness :
    generateMarkdown
        [ExtractedElement.mk "title" "T" none 1 none,
         ExtractedElement.mk "list" "item" none 1 none] =
      joinSep "\n"
        (([ExtractedElement.mk "title" "T" none 1 none,
           ExtractedElement.mk "list" "item" none 1 none]).map specRender) :=
  markdown_order_preserving
    [ExtractedElement.mk "title" "T" none 1 none,
     ExtractedElement.mk "list" "item" none 1 none] (by decide)

/-- C6: when the reader yields N pages whose stripped text is all
non-empty, the fallback returns a success envelope with engine name
`pypdf_fallback`, exactly N `paragraph` elements with no bounding box,
`total_pages` equal to N (the reader's page count), and statistics holding
exactly the keys `total_elements`, `total_pages` and `paragraphs`. -/
theorem fallback_roundtrip (reader : List Nat → Except String (List String))
    (pdf_bytes : List Nat) (filename : String) (elapsedMs : Nat)
    (pages : List String) (hr : reader pdf_bytes = Except.ok pages)
    (h : ∀ s ∈ pages, strTrim s ≠ "") :
    (fallbackExtraction reader pdf_bytes filename elapsedMs).status =
      "success" ∧
    (fallbackExtraction reader pdf_bytes filename elapsedMs).model =
      "pypdf_fallback" ∧
    (∃ es, (fallbackExtraction reader pdf_bytes filename elapsedMs).elements =
        some es ∧
      es.length = pages.length ∧
      ∀ e ∈ es, e.type = "paragraph" ∧ e.bbox = none) ∧
    (fallbackExtraction reader pdf_bytes filename elapsedMs).statistics =
      some [("total_elements", pages.length), ("total_pages", pages.length),
            ("paragraphs", pages.length)] := by
  have hk := fallbackLoop_all_kept h 1
  refine ⟨by simp [fallbackExtraction, hr], by simp [fallbackExtraction, hr],
    ?_, ?_⟩
  · refine ⟨(fallbackLoop 1 pages).1, by simp [fallbackExtraction, hr],
      hk.1, ?_⟩
    intro e he
    exact ⟨(hk.2 e he).1, (hk.2 e he).2.1⟩
  · simp [fallbackExtraction, hr, hk.1]

/-- C6 witness: a two-page reader with non-empty text on both pages. -/
theorem fallback_roundtrip_witness :
    (fallbackExtraction (fun _ => Except.ok ["Hello", "World"]) [] "d.pdf"
        4).status = "success" ∧
    (fallbackExtraction (fun _ => Except.ok ["Hello", "World"]) [] "d.pdf"
        4).model = "pypdf_fallback" ∧
    (∃ es, (fallbackExtraction (fun _ => Except.ok ["Hello", "World"]) []
        "d.pdf" 4).elements = some es ∧
      es.length = (["Hello", "World"] : List String).length ∧
      ∀ e ∈ es, e.type = "paragraph" ∧ e.bbox = none) ∧
    (fallbackExtraction (fun _ => Except.ok ["Hello", "World"]) [] "d.pdf"
        4).statistics =
      some [("total_elements", (["Hello", "World"] : List String).length),
            ("total_pages", (["Hello", "World"] : List String).length),
            ("paragraphs", (["Hello", "World"] : List String).length)] :=
  fallback_roundtrip (fun _ => Except.ok ["Hello", "World"]) [] "d.pdf" 4
    ["Hello", "World"] rfl (by decide)

/-- C7 counterexample: a fallback exception whose stringified form is the
empty string yields an error envelope whose `error` field is `some ""` —
the error string is not non-empty, refuting that part of the claim. -/
theorem fallback_error_empty_message_cex :
    (fallbackExtraction (fun _ => Except.error "") [] "a.pdf" 3).status =
      "error" ∧
    (fallbackExtraction (fun _ => Except.error "") [] "a.pdf" 3).error =
      some "" := by
  decide

/-- C7 amended: whenever the fallback raises, `extract`'s fallback path
returns exactly the error envelope — status `"error"`, the primary
engine's name `"docling"`, the original filename, the stringified
exception (possibly empty) in `error`, the elapsed time, and no
`markdown`, `elements`, `statistics` or `metadata` fields. -/
theorem fallback_error_envelope (reader : List Nat → Except String (List String))
    (pdf_bytes : List Nat) (filename : String) (elapsedMs : Nat)
    (e : String) (hr : reader pdf_bytes = Except.error e) :
    fallbackExtraction reader pdf_bytes filename elapsedMs =
      { status := "error", model := "docling", filename := filename,
        markdown := none, elements := none, statistics := none,
        processing_time_ms := elapsedMs, metadata := none,
        error := some e } := by
  simp [fallbackExtraction, hr]

/-- C7 amended witness at a concrete failing reader. -/
theorem fallback_error_envelope_witness :
    fallbackExtraction (fun _ => Except.error "bad pdf") [] "e.pdf" 6 =
      { status := "error", model := "docling", filename := "e.pdf",
        markdown := none, elements := none, statistics := none,
        processing_time_ms := 6, metadata := none,
        error := some "bad pdf" } :=
  fallback_error_envelope (fun _ => Except.error "bad pdf") [] "e.pdf" 6
    "bad pdf" rfl

/-- C8: every element produced by the primary parsing loop has `page = 1`
and any attached bounding box carries page index `1`; consequently every
successful primary extraction reports `statistics.total_pages = 1`. -/
theorem primary_page_always_one (primary : List Nat → Except Unit DoclingResult)
    (reader : List Nat → Except String (List String))
    (pdf_bytes : List Nat) (filename : String) (elapsedMs : Nat)
    (r : DoclingResult) (hp : primary pdf_bytes = Except.ok r) :
    (∀ e ∈ parseDoclingOutput r, e.page = 1 ∧ ∀ b ∈ e.bbox, b.page = 1) ∧
    ∃ st, (extract primary reader pdf_bytes filename elapsedMs).statistics =
        some st ∧
      st.lookup "total_pages" = some 1 := by
  refine ⟨parse_pages_one, calculateStats (parseDoclingOutput r),
    by simp [extract, hp], ?_⟩
  rw [calculateStats_total_pages]
  cases hm : (parseDoclingOutput r).map ExtractedElement.page with
  | nil => rfl
  | cons p ps =>
    have hall : ∀ x ∈ p :: ps, x = 1 := by
      rw [← hm]
      intro x hx
      rcases List.mem_map.mp hx with ⟨e, he, hxe⟩
      rw [← hxe]
      exact (parse_pages_one e he).1
    exact congrArg some (hall _ (listMax_mem_cons p ps))

/-- C8 witness: a primary result with one item that carries a bounding
box. -/
theorem primary_page_always_one_witness :
    (∀ e ∈ parseDoclingOutput (DoclingResult.mk
        (some (DoclingDocument.mk
          [NativeItem.mk (some "figure") (some "img.png") "img"
            (some (NativeBBox.mk 1 2 3 4))] false))),
      e.page = 1 ∧ ∀ b ∈ e.bbox, b.page = 1) ∧
    ∃ st, (extract (fun _ => Except.ok (DoclingResult.mk
          (some (DoclingDocument.mk
            [NativeItem.mk (some "figure") (some "img.png") "img"
              (some (NativeBBox.mk 1 2 3 4))] false))))
        (fun _ => Except.error "x") [] "f.pdf" 7).statistics = some st ∧
      st.lookup "total_pages" = some 1 :=
  primary_page_always_one _ _ _ _ _ _ rfl

/-- C10: on the primary path, caption elements are counted in
`total_elements` but in no per-type counter, so the six per-type counters
sum to `total_elements` minus the number of captions, and the sum is
strictly below `total_elements` whenever a caption element is present. -/
theorem caption_uncounted (primary : List Nat → Except Unit DoclingResult)
    (reader : List Nat → Except String (List String))
    (pdf_bytes : List Nat) (filename : String) (elapsedMs : Nat)
    (r : DoclingResult) (hp : primary pdf_bytes = Except.ok r) :
    ∃ st, (extract primary reader pdf_bytes filename elapsedMs).statistics =
        some st ∧
      ((st.lookup "titles").getD 0 + (st.lookup "headers").getD 0 +
       (st.lookup "paragraphs").getD 0 + (st.lookup "tables").getD 0 +
       (st.lookup "figures").getD 0 + (st.lookup "lists").getD 0 =
        (st.lookup "total_elements").getD 0 -
          countType (parseDoclingOutput r) "caption") ∧
      (0 < countType (parseDoclingOutput r) "caption" →
        (st.lookup "titles").getD 0 + (st.lookup "headers").getD 0 +
        (st.lookup "paragraphs").getD 0 + (st.lookup "tables").getD 0 +
        (st.lookup "figures").getD 0 + (st.lookup "lists").getD 0 <
          (st.lookup "total_elements").getD 0) := by
  refine ⟨calculateStats (parseDoclingOutput r), by simp [extract, hp],
    ?_, ?_⟩ <;>
  · have hs := counts_sum (parse_types_mem (r := r))
    simp only [calculateStats_titles, calculateStats_headers,
      calculateStats_paragraphs, calculateStats_tables,
      calculateStats_figures, calculateStats_lists,
      calculateStats_total_elements, Option.getD_some]
    omega

/-- C10 witness: a primary result holding one caption item and one title
item. -/
theorem caption_uncounted_witness :
    ∃ st, (extract (fun _ => Except.ok (DoclingResult.mk
          (some (DoclingDocument.mk
            [NativeItem.mk (some "caption") (some "Fig 1") "c" none,
             NativeItem.mk (some "title") (some "T") "t" none] false))))
        (fun _ => Except.error "x") [] "g.pdf" 8).statistics = some st ∧
      ((st.lookup "titles").getD 0 + (st.lookup "headers").getD 0 +
       (st.lookup "paragraphs").getD 0 + (st.lookup "tables").getD 0 +
       (st.lookup "figures").getD 0 + (st.lookup "lists").getD 0 =
        (st.lookup "total_elements").getD 0 -
          countType (parseDoclingOutput (DoclingResult.mk
            (some (DoclingDocument.mk
              [NativeItem.mk (some "caption") (some "Fig 1") "c" none,
               NativeItem.mk (some "title") (some "T") "t" none] false))))
            "caption") ∧
      (0 < countType (parseDoclingOutput (DoclingResult.mk
            (some (DoclingDocument.mk
              [NativeItem.mk (some "caption") (some "Fig 1") "c" none,
               NativeItem.mk (some "title") (some "T") "t" none] false))))
          "caption" →
        (st.lookup "titles").getD 0 + (st.lookup "headers").getD 0 +
        (st.lookup "paragraphs").getD 0 + (st.lookup "tables").getD 0 +
        (st.lookup "figures").getD 0 + (st.lookup "lists").getD 0 <
          (st.lookup "total_elements").getD 0) :=
  caption_uncounted _ _ _ _ _ _ rfl

/-- C9: for a fresh temporary-file name, the temp-file scope of the
primary path writes the payload to that file before the engine is invoked
(at the moment of the `convert` event the file holds the payload), the
`finally` clause unlinks it on every exit path — including when `write`,
`close` or the engine raises — and the filesystem is left exactly as it
was. -/
theorem tempfile_scope_clean (fs : List (String × List Nat))
    (tmpName : String) (payload : List Nat) (failAt : Option ScopeFail)
    (hfresh : fs.lookup tmpName = none) :
    runEvents fs (scopeEvents tmpName payload failAt) = fs ∧
    FsEvent.unlink tmpName ∈ scopeEvents tmpName payload failAt ∧
    (FsEvent.convert tmpName ∈ scopeEvents tmpName payload failAt →
      (fsAtConvert fs tmpName payload failAt).lookup tmpName =
        some payload) := by
  have hfil := filter_keeps_of_lookup_none hfresh
  cases failAt with
  | none =>
    refine ⟨?_, by simp [scopeEvents], ?_⟩
    · simp [scopeEvents, runEvents, applyEvent, List.filter_cons, hfil]
    · intro _
      simp [fsAtConvert, scopeEvents, runEvents, applyEvent,
        List.takeWhile, List.lookup]
  | some f =>
    cases f with
    | atWrite =>
      refine ⟨?_, by simp [scopeEvents], ?_⟩
      · simp [scopeEvents, runEvents, applyEvent, List.filter_cons, hfil]
      · intro hc
        simp [scopeEvents] at hc
    | atClose =>
      refine ⟨?_, by simp [scopeEvents], ?_⟩
      · simp [scopeEvents, runEvents, applyEvent, List.filter_cons, hfil]
      · intro hc
        simp [scopeEvents] at hc
    | atConvert =>
      refine ⟨?_, by simp [scopeEvents], ?_⟩
      · simp [scopeEvents, runEvents, applyEvent, List.filter_cons, hfil]
      · intro _
        simp [fsAtConvert, scopeEvents, runEvents, applyEvent,
          List.takeWhile, List.lookup]

/-- C9 witness: one pre-existing file, a fresh temp name, and an engine
that raises during conversion. -/
theorem tempfile_scope_clean_witness :
    runEvents [("other.txt", [1])]
        (scopeEvents "tmp123.pdf" [2, 3] (some ScopeFail.atConvert)) =
      [("other.txt", [1])] ∧
    FsEvent.unlink "tmp123.pdf" ∈
      scopeEvents "tmp123.pdf" [2, 3] (some ScopeFail.atConvert) ∧
    (FsEvent.convert "tmp123.pdf" ∈
        scopeEvents "tmp123.pdf" [2, 3] (some ScopeFail.atConvert) →
      (fsAtConvert [("other.txt", [1])] "tmp123.pdf" [2, 3]
          (some ScopeFail.atConvert)).lookup "tmp123.pdf" = some [2, 3]) :=
  tempfile_scope_clean [("other.txt", [1])] "tmp123.pdf" [2, 3]
    (some ScopeFail.atConvert) (by decide)

end DoclingExtraction
